import Mathlib

/-!
Verification of the rf-config-app configuration subsystem.

The development shallowly embeds, in Lean 4:

* the form-level validation logic of `frontend/src/App.jsx` (the `ranges`
  table, `validateField`, `validateAll`, `handleSubmit`, the reset handler,
  and the scope of names the component defines);
* the wizard-step validation of the `RFConfiguration` component
  (`validationRules`, `validateField`, `handleSubmit`);
* the configuration frame codec and the serial transport manager described
  in the design document.  Their Python sources (`backend/binary_protocol.py`,
  `backend/uart_sender.py`) are not part of the inspected tree, so those two
  components are modelled from the design document and are marked as such.

Machine numbers entered in the form are modelled as exact rationals: every
numeral the application manipulates (frequencies up to 6e9, gains up to 62,
and their decimal fractions) is far below 2^53, where JavaScript doubles are
exact, so rational arithmetic coincides with the JS semantics on this input
space.
-/

/-! ## JavaScript value model -/

/-- A value held by a controlled form field: the initial state stores numbers,
`onChange` stores the raw input string, and validation accepts both. -/
inductive JsVal where
  | num (q : ℚ)
  | str (s : String)
deriving DecidableEq, Repr

/-- Whitespace characters skipped by `parseFloat`. -/
def isSpaceChar (c : Char) : Bool :=
  c = ' ' || c = '\t' || c = '\n' || c = '\r'

/-- Value of a digit string read left to right. -/
def digitsToNat (ds : List Char) : Nat :=
  ds.foldl (fun a c => 10 * a + (c.toNat - 48)) 0

/-- The syntactic stage of JavaScript `parseFloat` on a character list: skip
leading whitespace, read an optional sign, then the longest prefix of the form
`digits[.digits]`, ignoring any trailing garbage; yield the sign, the integer
part, the fraction digits' value and the fraction length.  Exponent notation
and the `Infinity` literal are outside the subset this application produces
and are not modelled; on every decimal numeral (with or without trailing
garbage) this agrees with JS. -/
def parseFloatParts (cs0 : List Char) : Option (Bool × Nat × Nat × Nat) :=
  let cs1 := cs0.dropWhile isSpaceChar
  let signed : Bool × List Char :=
    match cs1 with
    | '-' :: rest => (true, rest)
    | '+' :: rest => (false, rest)
    | _ => (false, cs1)
  let intDs := signed.2.takeWhile Char.isDigit
  let rest2 := signed.2.dropWhile Char.isDigit
  let fracDs : List Char :=
    match rest2 with
    | '.' :: rest => rest.takeWhile Char.isDigit
    | _ => []
  if intDs.isEmpty && fracDs.isEmpty then none
  else some (signed.1, digitsToNat intDs, digitsToNat fracDs, fracDs.length)

/-- The numeric stage of `parseFloat`: the rational value of the parsed
sign, integer part and fraction. -/
def partsToRat (p : Bool × Nat × Nat × Nat) : ℚ :=
  let mag : ℚ := (p.2.1 : ℚ) + (p.2.2.1 : ℚ) / ((10 : ℚ) ^ p.2.2.2)
  if p.1 then -mag else mag

/-- JavaScript `parseFloat` on a character list. -/
def parseFloatChars (cs : List Char) : Option ℚ :=
  (parseFloatParts cs).map partsToRat

/-- `parseFloat` on a string. -/
def parseFloatStr (s : String) : Option ℚ :=
  parseFloatChars s.data

/-- `parseFloat` applied to a form-field value.  `parseFloat` of a finite JS
number is the number itself (conversion to string and back is exact below
2^53); `none` stands for `NaN`. -/
def parseFloatJs : JsVal → Option ℚ
  | .num q => some q
  | .str s => parseFloatStr s

/-! ## App.jsx: main-form validation -/

/-- The five numeric configuration fields, the exact keys of the `ranges`
table in `App.jsx` (`validateField` returns `true` for any other key and is
never asked to reject one, so the other keys carry no validation content). -/
inductive NumField where
  | fc | fs | rfg | ifg | bbg
deriving DecidableEq, Repr

/-- One entry of the `ranges` table. -/
structure FieldRange where
  min : ℚ
  max : ℚ
  label : String
deriving DecidableEq, Repr

/-- The `ranges` table of `App.jsx` (lines 26-32). -/
def ranges : NumField → FieldRange
  | .fc => ⟨1000000, 6000000000, "1 MHz - 6 GHz"⟩
  | .fs => ⟨1000000, 20000000, "1 MHz - 20 MHz"⟩
  | .rfg => ⟨0, 47, "0-47 dB"⟩
  | .ifg => ⟨0, 40, "0-40 dB"⟩
  | .bbg => ⟨0, 62, "0-62 dB"⟩

/-- `validateField` of `App.jsx` (lines 34-42): parse with `parseFloat`,
reject `NaN`, and compare against the inclusive range bounds. -/
def validateField (field : NumField) (value : JsVal) : Bool :=
  match parseFloatJs value with
  | none => false
  | some numValue =>
    decide ((ranges field).min ≤ numValue) && decide (numValue ≤ (ranges field).max)

/-- The component state object created by `useState` in `App.jsx` (lines 5-19).
`port` is an `Option` because a JS object may lack the property altogether
(reading it then yields `undefined`), which is distinct from holding `''`. -/
structure Config where
  deviceMode : String
  streamingProtocol : String
  modulation : String
  fc : JsVal
  fs : JsVal
  rfg : JsVal
  ifg : JsVal
  bbg : JsVal
  filePath : String
  port : Option String
deriving DecidableEq, Repr

/-- Read the value of a numeric field out of the config object. -/
def Config.numVal (c : Config) : NumField → JsVal
  | .fc => c.fc
  | .fs => c.fs
  | .rfg => c.rfg
  | .ifg => c.ifg
  | .bbg => c.bbg

/-- `Object.keys(ranges)` in insertion order. -/
def numFields : List NumField := [.fc, .fs, .rfg, .ifg, .bbg]

/-- The message `validateAll` stores for a failing field (`App.jsx` line 49). -/
def errorMessage (f : NumField) : String :=
  "Must be between " ++ (ranges f).label

/-- The `newErrors` object built by `validateAll` (`App.jsx` lines 44-55), as
the association list of its keys in insertion order: one entry per failing
field, keyed by the field name. -/
def computeErrors (c : Config) : List (NumField × String) :=
  numFields.filterMap fun f =>
    if validateField f (c.numVal f) then none else some (f, errorMessage f)

/-- A `status` message object. -/
structure StatusMsg where
  type : String
  message : String
deriving DecidableEq, Repr

/-- The component state of `App` relevant to submission. -/
structure AppState where
  config : Config
  status : Option StatusMsg
  isSubmitting : Bool
  errors : List (NumField × String)
deriving DecidableEq, Repr

/-- `handleSubmit` of `App.jsx` (lines 57-89) up to the point where the save
request leaves the component: `validateAll` stores the recomputed errors; if
any field fails, the handler sets the error status and returns without
issuing the request; otherwise it marks the form submitting, clears the
status, and posts the config object as the request body (the second component
of the result). -/
def handleSubmitModel (s : AppState) : AppState × Option Config :=
  let newErrors := computeErrors s.config
  if newErrors.isEmpty then
    ({ s with errors := newErrors, status := none, isSubmitting := true }, some s.config)
  else
    let failStatus : Option StatusMsg := some ⟨"error", "Please fix validation errors before saving"⟩
    ({ s with errors := newErrors, status := failStatus }, none)

/-- The initial config object (`App.jsx` lines 5-19; the duplicated gain keys
in the literal resolve, as in JS, to their last occurrence). -/
def initialConfig : Config :=
  { deviceMode := "receive", streamingProtocol := "uart", modulation := "QPSK",
    fc := .num 915000000, fs := .num 2000000,
    rfg := .num 14, ifg := .num 20, bbg := .num 30,
    filePath := "", port := some "" }

/-- The object literal passed to `setConfig` by the Reset-to-Defaults button
(`App.jsx` lines 405-418): it has no `port` property. -/
def resetConfigObject : Config :=
  { deviceMode := "receive", streamingProtocol := "uart", modulation := "QPSK",
    fc := .num 915000000, fs := .num 2000000,
    rfg := .num 14, ifg := .num 20, bbg := .num 30,
    filePath := "", port := none }

/-- The Reset-to-Defaults `onClick` handler: replace the whole config object
and clear the errors. -/
def resetOnClick (s : AppState) : AppState :=
  { s with config := resetConfigObject, errors := [] }

/-- Every name bound in the scope enclosing the JSX of `App.jsx`: the module
import, the component itself, its state variables and setters, and its local
functions.  `handleBlur` is not among them. -/
def appJsxScopeNames : List String :=
  ["useState", "App", "config", "setConfig", "status", "setStatus",
   "isSubmitting", "setIsSubmitting", "errors", "setErrors", "ranges",
   "validateField", "validateAll", "handleSubmit", "updateConfig",
   "handleFileSelect", "handleCheckConnection", "handleSendConfig",
   "hasErrors"]

/-- The identifier each numeric input's `onBlur` arrow function calls
(`App.jsx` lines 267, 283, 306, 322, 338): `handleBlur`, for all five. -/
def onBlurCallee (_f : NumField) : String := "handleBlur"

/-- Outcome of running an event handler: normal completion, or the
`ReferenceError` JS raises when a free identifier resolves to no binding. -/
inductive HandlerOutcome where
  | ok
  | referenceError (name : String)
deriving DecidableEq, Repr

/-- Run the `onBlur` handler of a numeric input: calling an identifier that is
bound in scope succeeds; calling an unbound identifier raises a
`ReferenceError` naming it. -/
def evalOnBlur (f : NumField) : HandlerOutcome :=
  if appJsxScopeNames.contains (onBlurCallee f) then .ok
  else .referenceError (onBlurCallee f)

/-- A call of `validateField` in the component: the body reads only the
constant `ranges` table and its two arguments and contains no state update, so
its embedding returns its pure result and leaves the component state as it
found it. -/
def validateFieldCall (s : AppState) (f : NumField) (v : JsVal) : Bool × AppState :=
  (validateField f v, s)

/-! ## RFConfiguration component (wizard step) -/

/-- One entry of the `validationRules` table of `RFConfiguration`. -/
structure RuleRFC where
  min : ℚ
  max : ℚ
  unit : String
  label : String
  hint : String
deriving DecidableEq, Repr

/-- The `validationRules` table of `RFConfiguration` (lines 60-66). -/
def validationRules : NumField → RuleRFC
  | .fc => ⟨1000000, 6000000000, "Hz", "Carrier Frequency", "Range: 1 MHz - 6 GHz"⟩
  | .fs => ⟨1000000, 20000000, "Hz", "Sampling Frequency", "Range: 1 MHz - 20 MHz"⟩
  | .rfg => ⟨0, 47, "dB", "RF Gain", "Range: 0 - 47 dB"⟩
  | .ifg => ⟨0, 40, "dB", "IF Gain", "Range: 0 - 40 dB"⟩
  | .bbg => ⟨0, 62, "dB", "Baseband Gain", "Range: 0 - 62 dB"⟩

/-- Decimal digits of `num / den` after the point, by long division, stopping
when the remainder vanishes (all values this application formats terminate). -/
def fracDigitsStr (num den : Nat) : Nat → String
  | 0 => ""
  | fuel + 1 =>
    if num = 0 then ""
    else toString ((10 * num) / den) ++ fracDigitsStr ((10 * num) % den) den fuel

/-- JS number-to-string on the (terminating-decimal) rationals this component
formats. -/
def ratToJsStr (q : ℚ) : String :=
  let sign := if q < 0 then "-" else ""
  let n := q.num.natAbs
  let d := q.den
  if n % d = 0 then sign ++ toString (n / d)
  else sign ++ toString (n / d) ++ "." ++ fracDigitsStr (n % d) d 30

/-- `formatValue` of `RFConfiguration` (lines 91-99). -/
def formatValue (value : ℚ) (unit : String) : String :=
  if unit = "Hz" then
    if value ≥ 1000000000 then ratToJsStr (value / 1000000000) ++ " GHz"
    else if value ≥ 1000000 then ratToJsStr (value / 1000000) ++ " MHz"
    else if value ≥ 1000 then ratToJsStr (value / 1000) ++ " kHz"
    else ratToJsStr value ++ " Hz"
  else ratToJsStr value ++ " " ++ unit

/-- `validateField` of `RFConfiguration` (lines 68-89): `none` means the field
validates, `some msg` is the error message stored under the field's key.  The
guard `if (!value)` fires exactly on the empty string, since the form state
holds strings. -/
def validateFieldRFC (name : NumField) (value : String) : Option String :=
  if value = "" then some "This field is required"
  else
    match parseFloatStr value with
    | none => some "Must be a valid number"
    | some numValue =>
      let rule := validationRules name
      if numValue < rule.min then
        some ("Value too low. Minimum: " ++ formatValue rule.min rule.unit)
      else if numValue > rule.max then
        some ("Value too high. Maximum: " ++ formatValue rule.max rule.unit)
      else none

/-- The `newErrors` object built by `handleSubmit` of `RFConfiguration`
(lines 122-127): one entry per field whose validator returns a message, keyed
by the field, in the table's key order. -/
def rfcCollectErrors (formData : NumField → String) : List (NumField × String) :=
  numFields.filterMap fun field =>
    (validateFieldRFC field (formData field)).map fun e => (field, e)

/-- A string is an unsigned-integer numeral exactly when it is a non-empty
run of decimal digits. -/
def isUnsignedIntegerNumeral (s : String) : Bool :=
  !s.data.isEmpty && s.data.all Char.isDigit

/-! ## Frame Codec, modelled from the design document

The Python sources of the codec (`backend/binary_protocol.py`) are not part of
the inspected tree; this section is modelled from the design document:
ConfigurationRecord and its domains (document section 3), `validate`,
`encode`, `decode` and the fixed layout of one magic/version byte, one byte
each for mode, protocol and modulation, 8 bytes carrier frequency, 4 bytes
sampling frequency, one byte per gain, and a trailing CRC-16/CCITT checksum
(document section 4.1).  Multi-byte fields are little-endian; the document
fixes widths but not endianness, so the choice is documented here once. -/

namespace Codec

/-- Modelled from the spec: the device-mode enumeration. -/
inductive DeviceMode where
  | receive | transmit
deriving DecidableEq, Repr

/-- Modelled from the spec: the streaming-protocol enumeration. -/
inductive StreamingProtocol where
  | uart | i2c | spi | file
deriving DecidableEq, Repr

/-- Modelled from the spec: the modulation enumeration. -/
inductive Modulation where
  | bpsk | qpsk | fsk
deriving DecidableEq, Repr

/-- Modelled from the spec: the canonical in-memory configuration record
(document section 3). -/
structure ConfigurationRecord where
  device_mode : DeviceMode
  streaming_protocol : StreamingProtocol
  modulation : Modulation
  carrier_frequency_hz : Nat
  sampling_frequency_hz : Nat
  rf_gain_db : Nat
  if_gain_db : Nat
  baseband_gain_db : Nat
  source_file_path : Option String
deriving DecidableEq, Repr

/-- A validation failure, carrying the field name and the reason with the
allowed range. -/
structure ValidationError where
  field : String
  reason : String
deriving DecidableEq, Repr

/-- Modelled from the spec: `validate` (document section 4.1).  Checks every
field against its domain in declaration order and returns the first violation;
`source_file_path` must be present and non-empty exactly when the protocol is
File (section 3 declares it present only for File). -/
def validate (r : ConfigurationRecord) : Except ValidationError Unit :=
  if r.carrier_frequency_hz < 1000000 ∨ 6000000000 < r.carrier_frequency_hz then
    .error ⟨"carrier_frequency_hz", "allowed range [1000000, 6000000000]"⟩
  else if r.sampling_frequency_hz < 1000000 ∨ 20000000 < r.sampling_frequency_hz then
    .error ⟨"sampling_frequency_hz", "allowed range [1000000, 20000000]"⟩
  else if 47 < r.rf_gain_db then
    .error ⟨"rf_gain_db", "allowed range [0, 47]"⟩
  else if 40 < r.if_gain_db then
    .error ⟨"if_gain_db", "allowed range [0, 40]"⟩
  else if 62 < r.baseband_gain_db then
    .error ⟨"baseband_gain_db", "allowed range [0, 62]"⟩
  else
    match r.streaming_protocol, r.source_file_path with
    | .file, none => .error ⟨"source_file_path", "required and non-empty for File protocol"⟩
    | .file, some p =>
      if p = "" then .error ⟨"source_file_path", "required and non-empty for File protocol"⟩
      else .ok ()
    | _, some _ => .error ⟨"source_file_path", "present only when streaming_protocol is File"⟩
    | _, none => .ok ()

/-- Little-endian byte decomposition: `toLE k n` is the `k` low bytes of `n`. -/
def toLE : Nat → Nat → List Nat
  | 0, _ => []
  | k + 1, n => n % 256 :: toLE k (n / 256)

/-- Little-endian byte recomposition. -/
def fromLE : List Nat → Nat
  | [] => 0
  | b :: bs => b + 256 * fromLE bs

/-- One shift step of CRC-16/CCITT (polynomial 0x1021): shift left, and xor in
the polynomial when the top bit was set; the state is kept below 2^16. -/
def crc16Step (crc : Nat) : Nat :=
  if 32768 ≤ crc then ((crc * 2) ^^^ 4129) % 65536 else (crc * 2) % 65536

/-- Fold one byte into the CRC state: xor it into the high byte, then run the
eight shift steps. -/
def crc16Byte (crc b : Nat) : Nat :=
  let x0 := (crc ^^^ (b * 256)) % 65536
  crc16Step (crc16Step (crc16Step (crc16Step (crc16Step (crc16Step (crc16Step (crc16Step x0)))))))

/-- Modelled from the spec: CRC-16/CCITT with initial value 0xFFFF over a byte
sequence (document sections 4.1 and 9 fix CRC-16/CCITT as the documented
choice). -/
def crc16 (bs : List Nat) : Nat :=
  bs.foldl crc16Byte 65535

/-- Encoded byte of the device mode. -/
def encodeDeviceMode : DeviceMode → Nat
  | .receive => 0
  | .transmit => 1

/-- Decoded device mode of a byte. -/
def decodeDeviceMode : Nat → Option DeviceMode
  | 0 => some .receive
  | 1 => some .transmit
  | _ => none

/-- Encoded byte of the streaming protocol. -/
def encodeStreamingProtocol : StreamingProtocol → Nat
  | .uart => 0
  | .i2c => 1
  | .spi => 2
  | .file => 3

/-- Decoded streaming protocol of a byte. -/
def decodeStreamingProtocol : Nat → Option StreamingProtocol
  | 0 => some .uart
  | 1 => some .i2c
  | 2 => some .spi
  | 3 => some .file
  | _ => none

/-- Encoded byte of the modulation. -/
def encodeModulation : Modulation → Nat
  | .bpsk => 0
  | .qpsk => 1
  | .fsk => 2

/-- Decoded modulation of a byte. -/
def decodeModulation : Nat → Option Modulation
  | 0 => some .bpsk
  | 1 => some .qpsk
  | 2 => some .fsk
  | _ => none

/-- Modelled from the spec: the 19 data bytes of a frame, in the documented
fixed order — magic/version byte 1, device mode, streaming protocol,
modulation, 8 bytes carrier frequency, 4 bytes sampling frequency, and the
three gain bytes.  The layout carries no source-file-path field. -/
def frameData (r : ConfigurationRecord) : List Nat :=
  1 :: encodeDeviceMode r.device_mode :: encodeStreamingProtocol r.streaming_protocol ::
    encodeModulation r.modulation ::
    (toLE 8 r.carrier_frequency_hz ++ (toLE 4 r.sampling_frequency_hz ++
      [r.rf_gain_db, r.if_gain_db, r.baseband_gain_db]))

/-- Modelled from the spec: the serialized artifact — the full byte sequence
(data followed by the two checksum bytes) and the computed checksum. -/
structure ConfigFrame where
  bytes : List Nat
  checksum : Nat
deriving DecidableEq, Repr

/-- Modelled from the spec: `encode` runs `validate` first and, on success,
lays the fields out in the fixed order and appends the CRC over every
preceding byte. -/
def encode (r : ConfigurationRecord) : Except ValidationError ConfigFrame :=
  match validate r with
  | .error e => .error e
  | .ok _ =>
    let data := frameData r
    .ok ⟨data ++ toLE 2 (crc16 data), crc16 data⟩

/-- Decode failures (document section 4.1). -/
inductive FrameError where
  | malformed | checksumInvalid | unsupportedVersion
deriving DecidableEq, Repr

/-- Modelled from the spec: `decode` checks the length, recomputes the CRC
over the bytes preceding the checksum field and compares it with the stored
one before interpreting anything, checks the magic/version byte, decodes the
three enum bytes, and reassembles the numeric fields.  The frame carries no
source-file-path field, so the decoded record has none. -/
def decode (bs : List Nat) : Except FrameError ConfigurationRecord :=
  if bs.length = 21 then
    let data := bs.take 19
    if crc16 data = fromLE (bs.drop 19) then
      match data with
      | magic :: moB :: prB :: mdB :: rest =>
        if magic = 1 then
          match decodeDeviceMode moB, decodeStreamingProtocol prB, decodeModulation mdB with
          | some mo, some pr, some md =>
            match rest.drop 12 with
            | [g1, g2, g3] =>
              .ok ⟨mo, pr, md, fromLE (rest.take 8), fromLE ((rest.drop 8).take 4), g1, g2, g3, none⟩
            | _ => .error .malformed
          | _, _, _ => .error .malformed
        else .error .unsupportedVersion
      | _ => .error .malformed
    else .error .checksumInvalid
  else .error .malformed

end Codec

/-! ## Serial Transport Manager, modelled from the design document

The Python source of the transport (`backend/uart_sender.py`) is not part of
the inspected tree; this section is modelled from the design document
(sections 3, 4.2 and 5): the port world tracks which named ports are held
open, an oracle fixes the environment's behaviour on one call (whether the
open succeeds, whether the single contiguous write completes, and how the
device replies within the timeout), and `send` and `probe` map a world and an
oracle to an outcome and the world after the call. -/

namespace Transport

/-- How the device behaves during the acknowledgement window: a success
reply, a checksum-failure reply, a rejection carrying a device code, or no
reply before the timeout expires (which also covers cancellation by timeout
expiry mid-await). -/
inductive ReplyBehavior where
  | ackReply
  | checksumNack
  | rejectReply (code : Nat)
  | silent
deriving DecidableEq, Repr

/-- The environment of one transport call. -/
structure PortOracle where
  openSucceeds : Bool
  writeCompletes : Bool
  reply : ReplyBehavior
deriving DecidableEq, Repr

/-- The process-wide port resource state: the names of ports currently held
open by some session. -/
structure PortWorld where
  openPorts : List String
deriving DecidableEq, Repr

/-- Modelled from the spec: the result of one send attempt. -/
inductive TransmissionOutcome where
  | acknowledged
  | deviceRejected (code : Nat)
  | timeout
  | portUnavailable
  | checksumMismatchReportedByDevice
deriving DecidableEq, Repr

/-- Modelled from the spec: the result of a connectivity probe. -/
inductive ConnectionStatus where
  | reachable
  | unreachable (reason : String)
deriving DecidableEq, Repr

/-- Modelled from the spec: `send` opens the port (failing fast with
PortUnavailable when it is already owned or cannot be opened), writes the
frame as a single contiguous write (a short write is PortUnavailable, never
partial success), waits for the reply, classifies it, and releases the port
on every exit path. -/
def send (w : PortWorld) (port_name : String) (_frame : List Nat) (o : PortOracle) :
    TransmissionOutcome × PortWorld :=
  if w.openPorts.contains port_name || !o.openSucceeds then
    (.portUnavailable, w)
  else
    let opened : PortWorld := ⟨port_name :: w.openPorts⟩
    let closed : PortWorld := ⟨opened.openPorts.erase port_name⟩
    if !o.writeCompletes then (.portUnavailable, closed)
    else
      match o.reply with
      | .silent => (.timeout, closed)
      | .checksumNack => (.checksumMismatchReportedByDevice, closed)
      | .rejectReply c => (.deviceRejected c, closed)
      | .ackReply => (.acknowledged, closed)

/-- Modelled from the spec: `probe` opens the named port (failing when it is
already owned or cannot be opened), optionally exchanges a ping within the
timeout, then closes the port again, reporting only reachability. -/
def probe (w : PortWorld) (port_name : String) (o : PortOracle) :
    ConnectionStatus × PortWorld :=
  if w.openPorts.contains port_name || !o.openSucceeds then
    (.unreachable "cannot open port", w)
  else
    let opened : PortWorld := ⟨port_name :: w.openPorts⟩
    let result : ConnectionStatus :=
      if o.reply = .silent then .unreachable "no response" else .reachable
    (result, ⟨opened.openPorts.erase port_name⟩)

end Transport


/-! ## Concrete objects used by the development -/

deriving instance DecidableEq for Except

/-- A configuration violating both frequency domains at once. -/
def c5Config : Config := { initialConfig with fc := .num 0, fs := .num 0 }

/-- A submission state whose carrier frequency is one below its domain. -/
def c4State : AppState := ⟨{ initialConfig with fc := .num 999999 }, none, false, []⟩

/-- A configuration record that is valid for the File protocol (non-empty
source file path, all numeric fields in domain). -/
def c2FileRecord : Codec.ConfigurationRecord :=
  ⟨.receive, .file, .bpsk, 1000000, 1000000, 0, 0, 0, some "samples.bin"⟩

/-- The section-8 end-to-end record of the design document. -/
def c2Record : Codec.ConfigurationRecord :=
  ⟨.transmit, .uart, .qpsk, 915000000, 2000000, 14, 20, 30, none⟩

/-! ## Helper lemmas -/

theorem validateField_num_iff (f : NumField) (q : ℚ) :
    validateField f (.num q) = true ↔ (ranges f).min ≤ q ∧ q ≤ (ranges f).max := by
  simp [validateField, parseFloatJs]

theorem mem_numFields (f : NumField) : f ∈ numFields := by
  cases f <;> simp [numFields]

theorem mem_computeErrors_iff (c : Config) (f : NumField) (m : String) :
    (f, m) ∈ computeErrors c ↔
      validateField f (c.numVal f) = false ∧ m = errorMessage f := by
  simp only [computeErrors, List.mem_filterMap]
  constructor
  · rintro ⟨g, hg, heq⟩
    cases h : validateField g (c.numVal g) with
    | true => rw [h] at heq; simp at heq
    | false =>
      rw [h] at heq
      simp only [if_neg Bool.false_ne_true, Option.some.injEq, Prod.mk.injEq] at heq
      obtain ⟨rfl, rfl⟩ := heq
      exact ⟨h, rfl⟩
  · rintro ⟨h1, rfl⟩
    exact ⟨f, mem_numFields f, by rw [h1]; simp⟩

theorem validateFieldRFC_none_iff (f : NumField) (s : String) :
    validateFieldRFC f s = none ↔
      s ≠ "" ∧ ∃ q, parseFloatStr s = some q ∧
        (validationRules f).min ≤ q ∧ q ≤ (validationRules f).max := by
  unfold validateFieldRFC
  by_cases hs : s = ""
  · simp [hs]
  · rw [if_neg hs]
    cases hp : parseFloatStr s with
    | none => simp [hp, hs]
    | some q =>
      simp only [hp, Option.some.injEq]
      constructor
      · intro h
        split_ifs at h with h1 h2
        exact ⟨hs, q, rfl, le_of_not_lt h1, le_of_not_lt h2⟩
      · rintro ⟨-, q', hq', hmin, hmax⟩
        obtain rfl : q = q' := hq'
        rw [if_neg (not_lt.mpr hmin), if_neg (not_lt.mpr hmax)]

/-! ## C1: boundary behaviour of the range validators -/

/-- C1: for every numeric configuration field, the range validators accept a
value exactly when it lies in the field's inclusive domain; the boundary
values 1000000 and 6000000000 of the carrier frequency are accepted while
999999 and 6000000001 are rejected, and the rejection is recorded in the
errors object under the field's name; likewise for the sampling frequency on
[1000000, 20000000] and the three gains on [0,47], [0,40] and [0,62], in both
the main form's validator and the wizard-step validator. -/
theorem c1_range_validators_accept_iff_in_domain :
    (∀ f : NumField, ∀ q : ℚ,
        validateField f (.num q) = true ↔ (ranges f).min ≤ q ∧ q ≤ (ranges f).max)
    ∧ (validateField .fc (.num 1000000) = true ∧ validateField .fc (.num 6000000000) = true
        ∧ validateField .fc (.num 999999) = false ∧ validateField .fc (.num 6000000001) = false)
    ∧ (validateField .fs (.num 1000000) = true ∧ validateField .fs (.num 20000000) = true
        ∧ validateField .fs (.num 999999) = false ∧ validateField .fs (.num 20000001) = false)
    ∧ (validateField .rfg (.num 0) = true ∧ validateField .rfg (.num 47) = true
        ∧ validateField .rfg (.num (-1)) = false ∧ validateField .rfg (.num 48) = false)
    ∧ (validateField .ifg (.num 0) = true ∧ validateField .ifg (.num 40) = true
        ∧ validateField .ifg (.num 41) = false)
    ∧ (validateField .bbg (.num 0) = true ∧ validateField .bbg (.num 62) = true
        ∧ validateField .bbg (.num 63) = false)
    ∧ computeErrors { initialConfig with fc := .num 999999 }
        = [(.fc, "Must be between 1 MHz - 6 GHz")]
    ∧ (∀ f : NumField, ∀ s : String,
        validateFieldRFC f s = none ↔
          s ≠ "" ∧ ∃ q, parseFloatStr s = some q ∧
            (validationRules f).min ≤ q ∧ q ≤ (validationRules f).max) :=
  ⟨validateField_num_iff, by decide, by decide, by decide, by decide, by decide,
    by decide, validateFieldRFC_none_iff⟩

/-! ## C5: what validation reports on multiple violations -/

/-- C5 counterexample: on a configuration violating two domains, `validateAll`
stores both violations; its result is not the first violation alone. -/
theorem c5_counterexample :
    computeErrors c5Config
      = [(.fc, "Must be between 1 MHz - 6 GHz"), (.fs, "Must be between 1 MHz - 20 MHz")]
    ∧ computeErrors c5Config ≠ [(.fc, "Must be between 1 MHz - 6 GHz")] := by decide

/-- C5 amended: when a configuration record violates the domains of several
fields, validation reports every violation, keyed by the field name, each with
a message enumerating the allowed range. -/
theorem c5_amended_every_violation_reported (c : Config) (f : NumField) (m : String) :
    (f, m) ∈ computeErrors c ↔
      validateField f (c.numVal f) = false ∧ m = "Must be between " ++ (ranges f).label :=
  mem_computeErrors_iff c f m

/-! ## C4: out-of-range fields block the save path -/

/-- C4: if some numeric field of the configuration lies outside its domain,
`handleSubmit` reports a validation error, issues no save request, and leaves
the stored configuration values untouched (nothing is clamped). -/
theorem c4_out_of_range_blocks_save (s : AppState)
    (h : ∃ f : NumField, ∃ q : ℚ, parseFloatJs (s.config.numVal f) = some q ∧
          (q < (ranges f).min ∨ (ranges f).max < q)) :
    (handleSubmitModel s).2 = none
    ∧ (handleSubmitModel s).1.config = s.config
    ∧ (handleSubmitModel s).1.status
        = some ⟨"error", "Please fix validation errors before saving"⟩ := by
  obtain ⟨f, q, hq, hout⟩ := h
  have hval : validateField f (s.config.numVal f) = false := by
    unfold validateField
    rw [hq]
    rcases hout with h1 | h2
    · simp [not_le.mpr h1]
    · simp [not_le.mpr h2]
  have hmem : (f, errorMessage f) ∈ computeErrors s.config :=
    (mem_computeErrors_iff _ _ _).mpr ⟨hval, rfl⟩
  have hne : (computeErrors s.config).isEmpty = false := by
    cases hE : computeErrors s.config with
    | nil => rw [hE] at hmem; cases hmem
    | cons a l => rfl
  simp [handleSubmitModel, hne]

theorem c4_witness :
    (handleSubmitModel c4State).2 = none
    ∧ (handleSubmitModel c4State).1.config = c4State.config
    ∧ (handleSubmitModel c4State).1.status
        = some ⟨"error", "Please fix validation errors before saving"⟩ :=
  c4_out_of_range_blocks_save c4State ⟨.fc, 999999, by decide, by decide⟩

/-! ## C7: validation is pure and deterministic -/

/-- C7: two calls of the field validator with the same field and value return
the same result whatever the surrounding component state, and a call leaves
the component state exactly as it found it (the body of `validateField` reads
only the constant `ranges` table and performs no state update). -/
theorem c7_validate_pure_deterministic :
    (∀ (f : NumField) (v : JsVal) (s1 s2 : AppState),
        (validateFieldCall s1 f v).1 = (validateFieldCall s2 f v).1)
    ∧ (∀ (s : AppState) (f : NumField) (v : JsVal), (validateFieldCall s f v).2 = s)
    ∧ (∀ (f : NumField) (v : JsVal), validateField f v = validateField f v) :=
  ⟨fun _ _ _ _ => rfl, fun _ _ _ => rfl, fun _ _ => rfl⟩

/-! ## C8: the undefined onBlur handler -/

/-- C8: each of the five numeric inputs' `onBlur` arrow functions calls the
identifier `handleBlur`, which is bound nowhere in `App.jsx`, so every blur
event on them raises a `ReferenceError` instead of validating the field. -/
theorem c8_onblur_raises_reference_error :
    (∀ f : NumField, onBlurCallee f = "handleBlur")
    ∧ appJsxScopeNames.contains "handleBlur" = false
    ∧ ∀ f : NumField, evalOnBlur f = .referenceError "handleBlur" := by
  refine ⟨fun f => rfl, by decide, fun f => by cases f <;> decide⟩

/-! ## C9: parseFloat admits non-integer numerals -/

/-- C9: because validation parses with `parseFloat`, the fractional gain value
`14.5` and the garbage-suffixed string `915000000abc` are both classified as
valid (in the main form and in the wizard step), although neither is an
unsigned-integer numeral as the data model declares. -/
theorem c9_validator_accepts_non_integer_numerals :
    validateField .rfg (.str "14.5") = true
    ∧ validateField .fc (.str "915000000abc") = true
    ∧ isUnsignedIntegerNumeral "14.5" = false
    ∧ isUnsignedIntegerNumeral "915000000abc" = false
    ∧ validateFieldRFC .rfg "14.5" = none
    ∧ parseFloatStr "14.5" = some (29 / 2)
    ∧ parseFloatStr "915000000abc" = some 915000000 := by
  have hp1 : parseFloatStr "14.5" = some (29 / 2) := by
    rw [parseFloatStr, parseFloatChars,
      show parseFloatParts "14.5".data = some (false, 14, 5, 1) from by decide]
    norm_num [Option.map_some', partsToRat]
  have hp2 : parseFloatStr "915000000abc" = some 915000000 := by
    rw [parseFloatStr, parseFloatChars,
      show parseFloatParts "915000000abc".data = some (false, 915000000, 0, 0) from by decide]
    norm_num [Option.map_some', partsToRat]
  refine ⟨?_, ?_, by decide, by decide, ?_, hp1, hp2⟩
  · rw [validateField]
    simp only [parseFloatJs, hp1]
    norm_num [ranges]
  · rw [validateField]
    simp only [parseFloatJs, hp2]
    norm_num [ranges]
  · rw [validateFieldRFC, if_neg (by decide : ¬("14.5" : String) = "")]
    simp only [hp1]
    norm_num [validationRules]

/-! ## C10: reset drops the port property -/

/-- C10: the object the Reset-to-Defaults handler stores has no `port`
property, so after a reset `config.port` is `undefined` rather than the empty
string it was initialised with; every other field takes its documented
default. -/
theorem c10_reset_loses_port :
    initialConfig.port = some ""
    ∧ resetConfigObject.port = none
    ∧ (∀ s : AppState, (resetOnClick s).config = resetConfigObject)
    ∧ resetConfigObject = { initialConfig with port := none } :=
  ⟨rfl, rfl, fun _ => rfl, rfl⟩

/-! ## C6: the transport releases the port on every exit path -/

/-- C6: whatever the environment does — open failure, port already owned,
short write, device silence (timeout or cancellation), rejection, checksum
complaint or acknowledgement — `send` and `probe` leave the port world exactly
as they found it: no port handle stays held after the call. -/
theorem c6_port_released_on_every_path (w : Transport.PortWorld) (p : String)
    (frame : List Nat) (o : Transport.PortOracle) :
    (Transport.send w p frame o).2 = w ∧ (Transport.probe w p o).2 = w := by
  obtain ⟨ports⟩ := w
  obtain ⟨os, wc, reply⟩ := o
  by_cases hc : p ∈ ports <;>
    cases os <;> cases wc <;> cases reply <;>
      simp [Transport.send, Transport.probe, hc, List.erase_cons_head]

/-! ## Codec lemmas -/

namespace Codec

theorem toLE_length (k n : Nat) : (toLE k n).length = k := by
  induction k generalizing n with
  | zero => rfl
  | succ k ih => simp [toLE, ih]

theorem fromLE_toLE (k n : Nat) (h : n < 256 ^ k) : fromLE (toLE k n) = n := by
  induction k generalizing n with
  | zero =>
    simp only [pow_zero, Nat.lt_one_iff] at h
    subst h
    rfl
  | succ k ih =>
    have hd : n / 256 < 256 ^ k := by
      rw [Nat.div_lt_iff_lt_mul (by norm_num)]
      calc n < 256 ^ (k + 1) := h
        _ = 256 ^ k * 256 := by ring
    simp only [toLE, fromLE, ih _ hd]
    omega

theorem crc16Step_lt (c : Nat) : crc16Step c < 65536 := by
  unfold crc16Step
  split <;> exact Nat.mod_lt _ (by norm_num)

theorem crc16Byte_lt (c b : Nat) : crc16Byte c b < 65536 := by
  unfold crc16Byte
  exact crc16Step_lt _

theorem crc16_fold_lt (bs : List Nat) (a : Nat) (h : a < 65536) :
    List.foldl crc16Byte a bs < 65536 := by
  induction bs generalizing a with
  | nil => exact h
  | cons b bs ih =>
    rw [List.foldl_cons]
    exact ih _ (crc16Byte_lt a b)

theorem crc16_lt (bs : List Nat) : crc16 bs < 65536 :=
  crc16_fold_lt bs 65535 (by norm_num)

theorem frameData_length (r : ConfigurationRecord) : (frameData r).length = 19 := by
  simp [frameData, toLE_length]

theorem decodeDeviceMode_encode (m : DeviceMode) :
    decodeDeviceMode (encodeDeviceMode m) = some m := by
  cases m <;> rfl

theorem decodeStreamingProtocol_encode (p : StreamingProtocol) :
    decodeStreamingProtocol (encodeStreamingProtocol p) = some p := by
  cases p <;> rfl

theorem decodeModulation_encode (m : Modulation) :
    decodeModulation (encodeModulation m) = some m := by
  cases m <;> rfl

theorem validate_ok_bounds {r : ConfigurationRecord} (h : validate r = .ok ()) :
    1000000 ≤ r.carrier_frequency_hz ∧ r.carrier_frequency_hz ≤ 6000000000
    ∧ 1000000 ≤ r.sampling_frequency_hz ∧ r.sampling_frequency_hz ≤ 20000000
    ∧ r.rf_gain_db ≤ 47 ∧ r.if_gain_db ≤ 40 ∧ r.baseband_gain_db ≤ 62 := by
  unfold validate at h
  split_ifs at h with h1 h2 h3 h4 h5
  omega

theorem validate_ok_path_none {r : ConfigurationRecord} (h : validate r = .ok ())
    (hnf : r.streaming_protocol ≠ .file) : r.source_file_path = none := by
  unfold validate at h
  split_ifs at h
  cases hsp : r.source_file_path with
  | none => rfl
  | some p =>
    rw [hsp] at h
    cases hpr : r.streaming_protocol <;> rw [hpr] at h <;>
      first
        | exact absurd hpr hnf
        | simp at h

theorem decode_frame (r : ConfigurationRecord)
    (hfc : r.carrier_frequency_hz < 256 ^ 8) (hfs : r.sampling_frequency_hz < 256 ^ 4) :
    decode (frameData r ++ toLE 2 (crc16 (frameData r)))
      = .ok { r with source_file_path := none } := by
  obtain ⟨mo, pr, md, fc, fs, g1, g2, g3, sp⟩ := r
  have hdlen : (frameData ⟨mo, pr, md, fc, fs, g1, g2, g3, sp⟩).length = 19 :=
    frameData_length _
  have h8 : (toLE 8 fc).length = 8 := toLE_length 8 fc
  have h4 : (toLE 4 fs).length = 4 := toLE_length 4 fs
  have hr8 : (toLE 8 fc ++ (toLE 4 fs ++ [g1, g2, g3])).drop 8 = toLE 4 fs ++ [g1, g2, g3] :=
    List.drop_left' h8
  have hrt : (toLE 8 fc ++ (toLE 4 fs ++ [g1, g2, g3])).take 8 = toLE 8 fc :=
    List.take_left' h8
  have hsplit : ((toLE 8 fc ++ (toLE 4 fs ++ [g1, g2, g3])).drop 8).drop 4
      = (toLE 8 fc ++ (toLE 4 fs ++ [g1, g2, g3])).drop 12 := by
    rw [List.drop_drop]
  have hr12 : (toLE 8 fc ++ (toLE 4 fs ++ [g1, g2, g3])).drop 12 = [g1, g2, g3] := by
    rw [← hsplit, hr8, List.drop_left' h4]
  have hrt4 : ((toLE 8 fc ++ (toLE 4 fs ++ [g1, g2, g3])).drop 8).take 4 = toLE 4 fs := by
    rw [hr8]
    exact List.take_left' h4
  have hfull : ((frameData ⟨mo, pr, md, fc, fs, g1, g2, g3, sp⟩)
      ++ toLE 2 (crc16 (frameData ⟨mo, pr, md, fc, fs, g1, g2, g3, sp⟩))).length = 21 := by
    simp [List.length_append, hdlen, toLE_length]
  unfold decode
  rw [if_pos hfull, List.take_left' hdlen, List.drop_left' hdlen,
    fromLE_toLE 2 _ (by simpa using crc16_lt _), if_pos rfl]
  simp only [frameData]
  rw [decodeDeviceMode_encode, decodeStreamingProtocol_encode, decodeModulation_encode]
  simp only [hr12, hrt, hrt4, fromLE_toLE 8 fc hfc, fromLE_toLE 4 fs hfs]
  simp

end Codec

/-! ## C2: the round-trip law -/

/-- C2 counterexample: the documented frame layout carries no
source-file-path field, so for a valid File-protocol record the decode of the
encode drops the path — `decode (encode r)` returns the record with
`source_file_path = none`, which differs from `r`.  The round-trip law fails
as stated on File-protocol records. -/
theorem c2_roundtrip_counterexample :
    Codec.validate c2FileRecord = .ok ()
    ∧ (Codec.encode c2FileRecord).map (fun fr => Codec.decode fr.bytes)
        = .ok (.ok { c2FileRecord with source_file_path := none })
    ∧ ({ c2FileRecord with source_file_path := none } : Codec.ConfigurationRecord)
        ≠ c2FileRecord := by
  refine ⟨by decide, ?_, by decide⟩
  unfold Codec.encode
  rw [show Codec.validate c2FileRecord = .ok () from by decide]
  simp only [Except.map]
  rw [Codec.decode_frame c2FileRecord (by norm_num [c2FileRecord]) (by norm_num [c2FileRecord])]

/-- C2 amended: for every valid ConfigurationRecord whose streaming protocol
is not File (equivalently, which carries no source file path), decoding the
encoding yields the record again: `decode` is the exact inverse of `encode`
on this input space. -/
theorem c2_amended_roundtrip (r : Codec.ConfigurationRecord)
    (hv : Codec.validate r = .ok ()) (hnf : r.streaming_protocol ≠ .file) :
    (Codec.encode r).map (fun fr => Codec.decode fr.bytes) = .ok (.ok r) := by
  have hb := Codec.validate_ok_bounds hv
  have hsp := Codec.validate_ok_path_none hv hnf
  have hfc : r.carrier_frequency_hz < 256 ^ 8 := lt_of_le_of_lt hb.2.1 (by norm_num)
  have hfs : r.sampling_frequency_hz < 256 ^ 4 := lt_of_le_of_lt hb.2.2.2.1 (by norm_num)
  unfold Codec.encode
  rw [hv]
  simp only [Except.map]
  rw [Codec.decode_frame r hfc hfs]
  have hr : ({ r with source_file_path := none } : Codec.ConfigurationRecord) = r := by
    obtain ⟨mo, pr, md, fc, fs, g1, g2, g3, sp⟩ := r
    simp only at hsp
    rw [hsp]
  rw [hr]

theorem c2_amended_roundtrip_witness :
    (Codec.encode c2Record).map (fun fr => Codec.decode fr.bytes) = .ok (.ok c2Record) :=
  c2_amended_roundtrip c2Record (by decide) (by decide)

/-! ## C3: the File-protocol path requirement -/

/-- C3: a configuration whose streaming protocol is File and whose source
file path is empty (or absent) fails validation -- so the save path reports a
validation error and `encode` produces no frame -- and the same configuration
with a non-empty source file path passes validation. -/
theorem c3_file_protocol_requires_nonempty_path (mo : Codec.DeviceMode)
    (md : Codec.Modulation) (fc fs g1 g2 g3 : Nat)
    (h1 : 1000000 ≤ fc) (h2 : fc ≤ 6000000000)
    (h3 : 1000000 ≤ fs) (h4 : fs ≤ 20000000)
    (h5 : g1 ≤ 47) (h6 : g2 ≤ 40) (h7 : g3 ≤ 62) :
    Codec.validate ⟨mo, .file, md, fc, fs, g1, g2, g3, some ""⟩
        = .error ⟨"source_file_path", "required and non-empty for File protocol"⟩
    ∧ Codec.validate ⟨mo, .file, md, fc, fs, g1, g2, g3, none⟩
        = .error ⟨"source_file_path", "required and non-empty for File protocol"⟩
    ∧ ∀ p : String, p ≠ "" →
        Codec.validate ⟨mo, .file, md, fc, fs, g1, g2, g3, some p⟩ = .ok () := by
  refine ⟨?_, ?_, fun p hpne => ?_⟩ <;>
    · simp only [Codec.validate]
      rw [if_neg (by omega), if_neg (by omega), if_neg (by omega),
        if_neg (by omega), if_neg (by omega)]
      try first
        | rfl
        | rw [if_neg hpne]

theorem c3_witness :
    Codec.validate ⟨.receive, .file, .bpsk, 915000000, 2000000, 14, 20, 30, some ""⟩
        = .error ⟨"source_file_path", "required and non-empty for File protocol"⟩
    ∧ Codec.validate ⟨.receive, .file, .bpsk, 915000000, 2000000, 14, 20, 30, none⟩
        = .error ⟨"source_file_path", "required and non-empty for File protocol"⟩
    ∧ Codec.validate ⟨.receive, .file, .bpsk, 915000000, 2000000, 14, 20, 30, some "samples.bin"⟩
        = .ok () := by
  obtain ⟨w1, w2, w3⟩ := c3_file_protocol_requires_nonempty_path .receive .bpsk
    915000000 2000000 14 20 30 (by norm_num) (by norm_num) (by norm_num) (by norm_num)
    (by norm_num) (by norm_num) (by norm_num)
  exact ⟨w1, w2, w3 "samples.bin" (by decide)⟩
